import Mathlib

/-!
Verification of the core logic of the SPECTROPY school-portal backend
(RA-PORTAL): school-ID derivation, bulk spreadsheet ingestion, exam-result
upload processing, and the cascading school delete.

JavaScript strings are modelled as Lean `String` (operating on `String.data`,
the underlying list of characters); JavaScript numbers appearing in the
ingestion logic are modelled as `ℚ` (subject marks, percentages) and `ℤ`
(parseInt results), with `Option` capturing `NaN`; `null`-able values are
`Option`; database/HTTP effects are modelled by explicit state passing over a
store-state type together with a trace of issued store operations, with an
oracle deciding which store operations fail.
-/

/-- Numeric value of a list of decimal digit characters (most significant
first), as used by both `parseInt` and `parseFloat` on already-validated
digit runs. -/
def natOfDigits10 (l : List Char) : Nat :=
  l.foldl (fun a c => 10 * a + (c.toNat - 48)) 0

/-- Model of JavaScript `String.prototype.trim`: drop whitespace from both
ends. -/
def jsTrim (s : String) : String :=
  ⟨((s.data.dropWhile Char.isWhitespace).reverse.dropWhile Char.isWhitespace).reverse⟩

/-- ASCII lower-casing of one character (the header names compared by the
ingester are ASCII). -/
def lowerChar (c : Char) : Char :=
  if 'A' ≤ c ∧ c ≤ 'Z' then Char.ofNat (c.toNat + 32) else c

/-- Model of JavaScript `String.prototype.toLowerCase` on ASCII data. -/
def jsToLower (s : String) : String := ⟨s.data.map lowerChar⟩

/-- JavaScript `a || b` on strings: `a` when it is truthy (nonempty), else
`b`. -/
def jsOrS (a b : String) : String := if a = "" then b else a

/-- JavaScript `a || null` on a string: `none` when `a` is falsy (empty). -/
def jsOrNullS (a : String) : Option String := if a = "" then none else some a

/-! ## School-ID deriver (src/controllers/schoolController.js, lines 9-34) -/

/-- The fixed state-name → two-letter-abbreviation table `STATES`. -/
def STATES : List (String × String) := [
  ("Andhra Pradesh", "AP"), ("Arunachal Pradesh", "AR"), ("Assam", "AS"), ("Bihar", "BR"),
  ("Chhattisgarh", "CG"), ("Goa", "GA"), ("Gujarat", "GJ"), ("Haryana", "HR"),
  ("Himachal Pradesh", "HP"), ("Jharkhand", "JH"), ("Karnataka", "KA"), ("Kerala", "KL"),
  ("Madhya Pradesh", "MP"), ("Maharashtra", "MH"), ("Manipur", "MN"), ("Meghalaya", "ML"),
  ("Mizoram", "MZ"), ("Nagaland", "NL"), ("Odisha", "OD"), ("Punjab", "PB"),
  ("Rajasthan", "RJ"), ("Sikkim", "SK"), ("Tamil Nadu", "TN"), ("Telangana", "TS"),
  ("Tripura", "TR"), ("Uttar Pradesh", "UP"), ("Uttarakhand", "UK"), ("West Bengal", "WB"),
  ("Andaman & Nicobar Islands", "AN"), ("Chandigarh", "CH"),
  ("Dadra & Nagar Haveli and Daman & Diu", "DN"), ("Delhi", "DL"),
  ("Jammu & Kashmir", "JK"), ("Ladakh", "LA"), ("Lakshadweep", "LD"), ("Puducherry", "PY")]

/-- `STATES[state] || ''` restricted to own properties: first-match lookup
in the table, with the empty string for an absent key. Property names
inherited from `Object.prototype` (which are truthy in the source, since
`STATES` is a plain object literal) are modelled separately by
`statesAccess` below; on every own key and on every name that is neither an
own key nor an inherited one, this lookup is exact. -/
def lookupStr : List (String × String) → String → String
  | [], _ => ""
  | (k, v) :: rest, s => if s = k then v else lookupStr rest s

/-- `yearYY`: `''` on an empty year, else the last two characters of the part
of the string before the first `'-'` (`String(ay).split('-')[0].slice(-2)`). -/
def yearYY (ay : String) : String :=
  if ay.data = [] then ""
  else
    let start := ay.data.takeWhile (fun c => c ≠ '-')
    ⟨start.drop (start.length - 2)⟩

/-- The normalized sequence characters: strip all non-digits from the school
number and keep the first two (`.replace(/\D/g, '').slice(0, 2)`). -/
def normSeqRaw (num : String) : List Char := (num.data.filter Char.isDigit).take 2

/-- `parseInt` on an all-digit string: `NaN` (`none`) exactly on the empty
string. -/
def parseIntDigits (l : List Char) : Option Nat :=
  if l = [] then none else some (natOfDigits10 l)

/-- `String(n).padStart(2, '0')` on the list of characters of a rendered
number. -/
def padStart2 (l : List Char) : List Char := List.replicate (2 - l.length) '0' ++ l

/-- `deriveSchoolId` (schoolController.js, lines 26-34): abbreviation from the
`STATES` table, two-digit start year, two-digit normalized sequence number in
[1, 99]; `null` when any component is invalid. -/
def deriveSchoolId (state academic_year school_number_2d : String) : Option String :=
  let abbr := lookupStr STATES state
  let yy := yearYY academic_year
  let nnRaw := normSeqRaw school_number_2d
  match parseIntDigits nnRaw with
  | none => none
  | some n =>
    if abbr.data = [] ∨ yy.data = [] ∨ n < 1 ∨ 99 < n then none
    else some (abbr ++ yy ++ ⟨padStart2 (Nat.repr n).data⟩)

namespace ServerIndex

/-- The bulk-upload copy of the `STATES` table (src/index.js, lines 70-79);
textually identical to the controller copy. -/
def STATES : List (String × String) := [
  ("Andhra Pradesh", "AP"), ("Arunachal Pradesh", "AR"), ("Assam", "AS"), ("Bihar", "BR"),
  ("Chhattisgarh", "CG"), ("Goa", "GA"), ("Gujarat", "GJ"), ("Haryana", "HR"),
  ("Himachal Pradesh", "HP"), ("Jharkhand", "JH"), ("Karnataka", "KA"), ("Kerala", "KL"),
  ("Madhya Pradesh", "MP"), ("Maharashtra", "MH"), ("Manipur", "MN"), ("Meghalaya", "ML"),
  ("Mizoram", "MZ"), ("Nagaland", "NL"), ("Odisha", "OD"), ("Punjab", "PB"),
  ("Rajasthan", "RJ"), ("Sikkim", "SK"), ("Tamil Nadu", "TN"), ("Telangana", "TS"),
  ("Tripura", "TR"), ("Uttar Pradesh", "UP"), ("Uttarakhand", "UK"), ("West Bengal", "WB"),
  ("Andaman & Nicobar Islands", "AN"), ("Chandigarh", "CH"),
  ("Dadra & Nagar Haveli and Daman & Diu", "DN"), ("Delhi", "DL"),
  ("Jammu & Kashmir", "JK"), ("Ladakh", "LA"), ("Lakshadweep", "LD"), ("Puducherry", "PY")]

/-- The bulk-upload copy of `yearYY` (src/index.js, lines 81-85). -/
def yearYY (ay : String) : String :=
  if ay.data = [] then ""
  else
    let start := ay.data.takeWhile (fun c => c ≠ '-')
    ⟨start.drop (start.length - 2)⟩

/-- The bulk-upload copy of `deriveSchoolId` (src/index.js, lines 87-95). -/
def deriveSchoolId (state academic_year school_number_2d : String) : Option String :=
  let abbr := lookupStr STATES state
  let yy := yearYY academic_year
  let nnRaw := normSeqRaw school_number_2d
  match parseIntDigits nnRaw with
  | none => none
  | some n =>
    if abbr.data = [] ∨ yy.data = [] ∨ n < 1 ∨ 99 < n then none
    else some (abbr ++ yy ++ ⟨padStart2 (Nat.repr n).data⟩)

end ServerIndex

/-! ### Spec-side predicates for the deriver claims -/

/-- The academic year has the spec's literal "YYYY-YYYY" shape: four digits,
a hyphen, four digits. -/
def isYYYYdashYYYY (s : String) : Bool :=
  match s.data with
  | [a, b, c, d, h, e, f, g, k] =>
    a.isDigit && b.isDigit && c.isDigit && d.isDigit && h = '-' &&
      e.isDigit && f.isDigit && g.isDigit && k.isDigit
  | _ => false

/-- The identifier shape claimed by the spec: six characters matching the
regular expression ^[A-Z]\x7b2\x7d\d\x7b4\x7d$. -/
def matchesIdPattern (s : String) : Bool :=
  match s.data with
  | [a, b, c, d, e, f] =>
    a.isUpper && b.isUpper && c.isDigit && d.isDigit && e.isDigit && f.isDigit
  | _ => false

/-- Two upper-case characters (the shape of every abbreviation in the
`STATES` table). -/
def twoUpper (s : String) : Bool :=
  match s.data with
  | [a, b] => a.isUpper && b.isUpper
  | _ => false

/-- Two decimal digit characters. -/
def twoDigitChars (l : List Char) : Bool :=
  match l with
  | [x, y] => x.isDigit && y.isDigit
  | _ => false

/-- The result of the JavaScript property access `STATES[state]` on the
plain object literal `STATES`: an own key yields its string value; a
property inherited from `Object.prototype` yields that (truthy, non-string)
member; anything else is undefined. -/
inductive StatesHit where
  | own (v : String)
  | protoMember (name : String)
  | absent
deriving DecidableEq

/-- The enumerable and non-enumerable property names a plain object literal
inherits from `Object.prototype`. -/
def OBJECT_PROTOTYPE_KEYS : List String :=
  ["constructor", "hasOwnProperty", "isPrototypeOf", "propertyIsEnumerable",
   "toLocaleString", "toString", "valueOf", "__proto__",
   "__defineGetter__", "__defineSetter__", "__lookupGetter__", "__lookupSetter__"]

/-- `STATES[state]` with the prototype chain: own properties shadow the
prototype; otherwise inherited `Object.prototype` members are found; only
names absent from both give undefined. -/
def statesAccess (state : String) : StatesHit :=
  if state ∈ STATES.map Prod.fst then .own (lookupStr STATES state)
  else if state ∈ OBJECT_PROTOTYPE_KEYS then .protoMember state
  else .absent

/-- Truthiness of `STATES[state] || ''`: a nonempty own value or any
inherited member is truthy; undefined falls back to the falsy `''`. -/
def statesTruthy : StatesHit → Bool
  | .own v => v ≠ ""
  | .protoMember _ => true
  | .absent => false

/-- Stand-in for the engine-defined string rendering of an inherited
`Object.prototype` member when it reaches the template literal (for example
a function member renders as its source text). The theorems below use only
that some string is produced here, never its exact text. -/
def protoText (name : String) : String :=
  "[inherited Object.prototype member " ++ name ++ "]"

/-- Stringification of the abbreviation inside the template literal. -/
def statesRender : StatesHit → String
  | .own v => v
  | .protoMember name => protoText name
  | .absent => ""

/-- `deriveSchoolId` with the prototype-chain semantics of the `STATES`
lookup made explicit: identical to `deriveSchoolId` except that a state name
inherited from `Object.prototype` makes the abbreviation truthy, so the
function returns a non-null (garbage) identifier instead of null. -/
def deriveSchoolIdJs (state academic_year school_number_2d : String) : Option String :=
  let abbr := statesAccess state
  let yy := yearYY academic_year
  let nnRaw := normSeqRaw school_number_2d
  match parseIntDigits nnRaw with
  | none => none
  | some n =>
    if statesTruthy abbr = false ∨ yy.data = [] ∨ n < 1 ∨ 99 < n then none
    else some (statesRender abbr ++ yy ++ ⟨padStart2 (Nat.repr n).data⟩)

/-! ## Bulk school upload (src/index.js lines 193-263 and the
uploadSchools controller in src/middleware/errorHandler.js lines 20-87;
the two copies share the row-processing logic verbatim) -/

/-- A parsed spreadsheet row for the header-keyed school upload: header-name /
cell-value pairs (sheet_to_json with defval '' yields a string per header). -/
abbrev SRow : Type := List (String × String)

/-- `pick(row, wanted)`: value of the first key whose trimmed, lower-cased
form equals the lower-cased wanted name; `''` when there is none. -/
def pick (row : SRow) (wanted : String) : String :=
  match List.find? (fun kv => jsToLower (jsTrim kv.1) == jsToLower wanted) row with
  | some kv => kv.2
  | none => ""

/-- `pick(r, 'School Name') || pick(r, 'SCHOOL_NAME')`. -/
def rowSchoolName (r : SRow) : String := jsOrS (pick r "School Name") (pick r "SCHOOL_NAME")

/-- `pick(r, 'State') || pick(r, 'STATE')`. -/
def rowState (r : SRow) : String := jsOrS (pick r "State") (pick r "STATE")

/-- `pick(r, 'Academic Year') || pick(r, 'ACADEMIC_YEAR')`. -/
def rowAcademicYear (r : SRow) : String :=
  jsOrS (pick r "Academic Year") (pick r "ACADEMIC_YEAR")

/-- The four-way fallback for the school number column. -/
def rowSchoolNumber (r : SRow) : String :=
  jsOrS (pick r "School Number") (jsOrS (pick r "SCHOOL_NUMBER")
    (jsOrS (pick r "SCHOOL_NO") (pick r "SCHOOL_NUMBER_2D")))

/-- A row is missing a required field when any of the four picked values is
falsy (empty). -/
def missingRequired (r : SRow) : Bool :=
  rowSchoolName r = "" || rowState r = "" || rowAcademicYear r = "" ||
    rowSchoolNumber r = ""

/-- The record pushed onto the batch for a valid row. -/
structure SchoolRec where
  school_id : String
  school_name : String
  state : String
  academic_year : String
  area : Option String
  district : Option String
deriving DecidableEq

/-- The row loop of the bulk school upload (index.js lines 215-245): a
missing required field or a failed id derivation records a per-row error with
the 1-based row number and the row is skipped; otherwise the record joins the
batch. Returns (batch, errors). -/
def uploadSchoolsRows : Nat → List SRow → List SchoolRec × List String
  | _, [] => ([], [])
  | i, r :: rest =>
    let res := uploadSchoolsRows (i + 1) rest
    if missingRequired r then
      (res.1, ("Row " ++ Nat.repr (i + 1) ++ ": Missing required fields") :: res.2)
    else
      match deriveSchoolId (rowState r) (rowAcademicYear r) (rowSchoolNumber r) with
      | none =>
        (res.1, ("Row " ++ Nat.repr (i + 1) ++ ": Invalid SCHOOL_ID derivation") :: res.2)
      | some sid =>
        ({ school_id := sid, school_name := rowSchoolName r, state := rowState r,
           academic_year := rowAcademicYear r, area := jsOrNullS (pick r "Area"),
           district := jsOrNullS (pick r "District") } :: res.1, res.2)

/-- 0-based positions (offset by the starting index) of the rows that are
missing a required field. -/
def missingIndices : Nat → List SRow → List Nat
  | _, [] => []
  | i, r :: rest =>
    if missingRequired r then i :: missingIndices (i + 1) rest
    else missingIndices (i + 1) rest

/-! ## Exam-result upload (src/controllers/schoolController.js lines 645-939)

Parsed spreadsheet rows are lists of (column-key, cell) pairs; a cell is
`Option String` (`none` models the `null` produced by `defval: null`; with
`raw: false` every present value is a string). -/

/-- A parsed row keyed by column labels: present keys map to a nullable
string cell. -/
abbrev XRow : Type := List (String × Option String)

/-- `key in row` together with the stored value: `none` when the key is
absent, `some c` with the (nullable) cell otherwise. -/
def cellGet (r : XRow) (k : String) : Option (Option String) :=
  (List.find? (fun kv => kv.1 == k) r).map Prod.snd

/-- Model of the JavaScript `parseFloat` builtin on a string: optional
leading whitespace and sign, decimal digits with an optional fraction and an
optional exponent, ignoring any trailing garbage; `none` models `NaN` (no
leading number). -/
def jsParseFloat (s : String) : Option ℚ :=
  let l := s.data.dropWhile Char.isWhitespace
  let sl : ℚ × List Char :=
    match l with
    | '-' :: rest => (-1, rest)
    | '+' :: rest => (1, rest)
    | _ => (1, l)
  let intPart := sl.2.takeWhile Char.isDigit
  let r1 := sl.2.dropWhile Char.isDigit
  let fr : List Char × List Char :=
    match r1 with
    | '.' :: rest => (rest.takeWhile Char.isDigit, rest.dropWhile Char.isDigit)
    | _ => ([], r1)
  if intPart = [] ∧ fr.1 = [] then none
  else
    let mant : ℚ := (natOfDigits10 intPart : ℚ) +
      (natOfDigits10 fr.1 : ℚ) / ((10 : ℚ) ^ fr.1.length)
    let exp : ℤ :=
      match fr.2 with
      | c :: rest =>
        if c = 'e' ∨ c = 'E' then
          let er : ℤ × List Char :=
            match rest with
            | '-' :: rr => (-1, rr)
            | '+' :: rr => (1, rr)
            | _ => (1, rest)
          let ed := er.2.takeWhile Char.isDigit
          if ed = [] then 0 else er.1 * (natOfDigits10 ed : ℤ)
        else 0
      | [] => 0
    some (sl.1 * mant * (10 : ℚ) ^ exp)

/-- Model of the JavaScript `parseInt` builtin (no explicit radix, decimal
input as produced by the upload forms): optional leading whitespace and sign
followed by decimal digits, ignoring trailing garbage; `none` models `NaN`. -/
def jsParseInt (s : String) : Option ℤ :=
  let l := s.data.dropWhile Char.isWhitespace
  let sl : ℤ × List Char :=
    match l with
    | '-' :: rest => (-1, rest)
    | '+' :: rest => (1, rest)
    | _ => (1, l)
  let ds := sl.2.takeWhile Char.isDigit
  if ds = [] then none else some (sl.1 * (natOfDigits10 ds : ℤ))

/-- `parseFloat(x.toFixed(2))`: round to two decimal places. -/
def jsToFixed2 (x : ℚ) : ℚ := ((round (x * 100) : ℤ) : ℚ) / 100

/-- The hardcoded positional column-index → field map (schoolController.js
lines 737-747), in `Object.entries` order (integer-like keys ascending). -/
def COLUMN_MAP : List (String × String) := [
  ("2", "student_id"), ("3", "student_name"),
  ("7", "correct"), ("8", "wrong"), ("9", "unattempted"),
  ("10", "physics"), ("18", "chemistry"), ("26", "maths"), ("34", "biology")]

/-- `mappedRow`: for each (colIndex, key) entry of the column map,
`mappedRow[key] = colIndex in r ? r[colIndex] : null`. -/
def buildMappedRow (r : XRow) : XRow :=
  COLUMN_MAP.map (fun ck => (ck.2,
    match cellGet r ck.1 with
    | some c => c
    | none => none))

/-- `getNumber(row, ...keys)`: the first key that is present, non-null,
nonempty and parses to a number gives the value; otherwise 0. -/
def getNumber (row : XRow) : List String → ℚ
  | [] => 0
  | k :: rest =>
    match cellGet row k with
    | some (some s) =>
      if s ≠ "" then
        match jsParseFloat s with
        | some q => q
        | none => getNumber row rest
      else getNumber row rest
    | _ => getNumber row rest

/-- `getString(row, ...keys)`: the first present non-null value, stringified
and trimmed; otherwise ''. -/
def getString (row : XRow) : List String → String
  | [] => ""
  | k :: rest =>
    match cellGet row k with
    | some (some s) => jsTrim s
    | _ => getString row rest

/-- Does the first list start the second (character-wise)? Used for the
substring test below. -/
def startsWithL : List Char → List Char → Bool
  | [], _ => true
  | _ :: _, [] => false
  | a :: as, b :: bs => a == b && startsWithL as bs

/-- Model of JavaScript `String.prototype.includes` on character lists. -/
def containsL (needle : List Char) : List Char → Bool
  | [] => needle.isEmpty
  | b :: bs => startsWithL needle (b :: bs) || containsL needle bs

/-- The header-row heuristic (schoolController.js lines 703-712): the cell at
column key "2" is a string containing "roll" (case-insensitively), or the
cell at column key "3" is a string containing "name". -/
def isHeaderRow (r : XRow) : Bool :=
  (match cellGet r "2" with
   | some (some s) => s ≠ "" && containsL ("roll".data) (jsToLower s).data
   | _ => false)
  || (match cellGet r "3" with
      | some (some s) => s ≠ "" && containsL ("name".data) (jsToLower s).data
      | _ => false)

/-- The leading-row skipping of the exam-result upload (schoolController.js
lines 696-712): the first row (column indices) is dropped unconditionally
when present, then the next row is dropped when the header heuristic
matches it. -/
def skipLeadingRows (records : List XRow) : List XRow :=
  let r1 := if records.length > 0 then records.drop 1 else records
  match r1 with
  | hr :: _ => if isHeaderRow hr then r1.drop 1 else r1
  | [] => r1

/-- `parseInt(x) || d`: both `NaN` and 0 are falsy and fall back to the
default. -/
def jsOrIntDefault (x : Option ℤ) (d : ℤ) : ℤ :=
  match x with
  | some v => if v = 0 then d else v
  | none => d

/-- `NaN`-propagating addition of `parseInt` results: the sum of the four
declared maxima is `NaN` as soon as one of them is. -/
def nanAdd (a b : Option ℤ) : Option ℤ :=
  match a, b with
  | some x, some y => some (x + y)
  | _, _ => none

/-- The exam context taken from the request body (all fields arrive as
strings); `class` and `section` are renamed `className`/`sectionName` for
Lean. -/
structure ExamCtx where
  school_id : String
  program : String
  exam_pattern : String
  className : String
  sectionName : String
  exam_date : String
  max_marks_physics : String
  max_marks_maths : String
  max_marks_chemistry : String
  max_marks_biology : String
deriving DecidableEq

/-- `total_max_marks = maxPhysics + maxChemistry + maxMaths + maxBiology`
(schoolController.js lines 796-800), `NaN` when any `parseInt` fails. -/
def totalMaxMarks (ctx : ExamCtx) : Option ℤ :=
  nanAdd (nanAdd (nanAdd (jsParseInt ctx.max_marks_physics)
    (jsParseInt ctx.max_marks_chemistry)) (jsParseInt ctx.max_marks_maths))
    (jsParseInt ctx.max_marks_biology)

/-- The `rowData` object stored as JSONB in `upload.data`
(schoolController.js lines 805-836). -/
structure UploadRowData where
  school_id : String
  program : String
  exam_pattern : String
  className : String
  sectionName : String
  exam_date : Option String
  max_marks_physics : ℤ
  max_marks_maths : ℤ
  max_marks_chemistry : ℤ
  max_marks_biology : ℤ
  student_id : String
  first_name : String
  last_name : String
  total_questions : ℤ
  correct_answers : ℚ
  wrong_answers : ℚ
  unattempted : ℚ
  physics_marks : ℚ
  chemistry_marks : ℚ
  maths_marks : ℚ
  biology_marks : ℚ
  total_marks : ℚ
  percentage : ℚ
  class_rank : String
  school_rank : String
  all_schools_rank : String
  created_at : String
deriving DecidableEq

/-- One row of the `upload` table. -/
structure UploadRow where
  file_name : String
  row_index : Nat
  data : UploadRowData
deriving DecidableEq

/-- The per-row builder of the exam-result upload (schoolController.js lines
769-843): positional mapping, empty-student-id rows are dropped, name split
on spaces, derived totals and two-decimal percentage (0 when the max-marks
sum is 0 or `NaN`). `now` stands for `new Date().toISOString()`. -/
def buildUploadRow (ctx : ExamCtx) (fileName now : String) (index : Nat)
    (r : XRow) : Option UploadRow :=
  let mappedRow := buildMappedRow r
  let studentId := getString mappedRow ["student_id"]
  if studentId = "" then none
  else
    let studentName := getString mappedRow ["student_name"]
    let physics := getNumber mappedRow ["physics"]
    let chemistry := getNumber mappedRow ["chemistry"]
    let maths := getNumber mappedRow ["maths"]
    let biology := getNumber mappedRow ["biology"]
    let correct := getNumber mappedRow ["correct"]
    let wrong := getNumber mappedRow ["wrong"]
    let unattempted := getNumber mappedRow ["unattempted"]
    let nameParts := studentName.data.splitOn ' '
    let firstName : String := ⟨nameParts.headD []⟩
    let lastName : String := ⟨List.intercalate [' '] (nameParts.drop 1)⟩
    let totalMarks := physics + chemistry + maths + biology
    let percentage : ℚ :=
      match totalMaxMarks ctx with
      | some v => if 0 < v then jsToFixed2 (totalMarks / (v : ℚ) * 100) else 0
      | none => 0
    some {
      file_name := fileName,
      row_index := index + 1,
      data := {
        school_id := ctx.school_id, program := ctx.program,
        exam_pattern := ctx.exam_pattern, className := ctx.className,
        sectionName := ctx.sectionName, exam_date := jsOrNullS ctx.exam_date,
        max_marks_physics := jsOrIntDefault (jsParseInt ctx.max_marks_physics) 50,
        max_marks_maths := jsOrIntDefault (jsParseInt ctx.max_marks_maths) 50,
        max_marks_chemistry := jsOrIntDefault (jsParseInt ctx.max_marks_chemistry) 50,
        max_marks_biology := jsOrIntDefault (jsParseInt ctx.max_marks_biology) 0,
        student_id := studentId, first_name := firstName, last_name := lastName,
        total_questions := 60, correct_answers := correct, wrong_answers := wrong,
        unattempted := unattempted, physics_marks := physics,
        chemistry_marks := chemistry, maths_marks := maths,
        biology_marks := biology, total_marks := totalMarks,
        percentage := percentage, class_rank := "-", school_rank := "-",
        all_schools_rank := "-", created_at := now } }

/-- `uploadRows`: map the (already skipped) records through the row builder
with their 0-based index, dropping invalid rows. -/
def examUploadRows (ctx : ExamCtx) (fileName now : String)
    (records : List XRow) : List UploadRow :=
  records.enum.filterMap (fun p => buildUploadRow ctx fileName now p.1 p.2)

/-! ### The upload handler with its store interactions (schoolController.js
lines 646-939), modelled as explicit state passing plus a trace of issued
store operations; an oracle decides which operations fail and what effect
each stored procedure has. -/

/-- The natural key used by the duplicate-exam check (lines 714-724):
school, program, pattern, class, section and (nullable) date. -/
structure ExamKey where
  school_id : String
  program : String
  exam_pattern : String
  className : String
  sectionName : String
  exam_date : Option String
deriving DecidableEq

/-- The store state visible to the exam-result upload: the `exams` table
(projected onto the checked key) and the `upload` table. -/
structure ExamDB where
  exams : List ExamKey
  uploads : List UploadRow
deriving DecidableEq

/-- Store operations issued by the exam-result upload handler. -/
inductive ExOp where
  | checkExam (key : ExamKey)
  | insertUpload (rows : List UploadRow)
  | rpc (name : String)
  | fetchResults
deriving DecidableEq

/-- The HTTP response of the exam-result upload. -/
structure ExamResp where
  status : Nat
  ok : Bool := false
  count : Nat := 0
  results : List String := []
  errMsg : String := ""
deriving DecidableEq

/-- Failure behaviour of the store during one request: whether the
duplicate-check select errors, whether the batch insert errors, which
recalculation procedures error, what effect a succeeding procedure has, and
the outcome of the final results fetch. -/
structure ExamOracle where
  checkErr : Bool
  insertErr : Bool
  rpcErr : String → Bool
  rpcEffect : String → ExamDB → ExamDB
  fetchErr : Bool
  fetchRows : List String

/-- One recalculation step: the call is always issued; a failing call leaves
the store unchanged (the handler only logs the error). -/
def rpcStep (o : ExamOracle) (name : String) (db : ExamDB) : ExamDB :=
  if o.rpcErr name then db else o.rpcEffect name db

/-- The key the handler checks for duplicates (`exam_date` is passed as
`exam_date || null`). -/
def examKeyOf (ctx : ExamCtx) : ExamKey :=
  { school_id := ctx.school_id, program := ctx.program,
    exam_pattern := ctx.exam_pattern, className := ctx.className,
    sectionName := ctx.sectionName, exam_date := jsOrNullS ctx.exam_date }

/-- The exam-result upload handler after file parsing (schoolController.js
lines 692-931): empty-file check, leading-row skipping, duplicate-exam check
(409 and no writes on a hit), row building, batch insert into `upload`, the
five recalculation calls (each non-fatal), the results fetch (non-fatal),
and a success response carrying the uploaded row count. Returns the final
store state, the response, and the trace of issued store operations. -/
def uploadExamResultsHandler (o : ExamOracle) (ctx : ExamCtx)
    (fileName now : String) (records : List XRow) (db : ExamDB) :
    ExamDB × ExamResp × List ExOp :=
  if records.isEmpty then
    (db, { status := 400, errMsg := "No data found in file" }, [])
  else
    let key := examKeyOf ctx
    if o.checkErr then
      (db, { status := 500, errMsg := "Failed to verify exam uniqueness" },
        [.checkExam key])
    else if db.exams.any (fun e => e == key) then
      (db, { status := 409, errMsg :=
        "This exam has already been registered and results uploaded. Duplicate uploads are not allowed." },
        [.checkExam key])
    else
      let uploadRows := examUploadRows ctx fileName now (skipLeadingRows records)
      if uploadRows.isEmpty then
        (db, { status := 400, errMsg := "No valid records processed" },
          [.checkExam key])
      else if o.insertErr then
        (db, { status := 500, errMsg := "Failed to save raw upload data" },
          [.checkExam key, .insertUpload uploadRows])
      else
        let db1 : ExamDB := { db with uploads := db.uploads ++ uploadRows }
        let db2 := rpcStep o "calculate_ranks" db1
        let db3 := rpcStep o "calculate_exam_averages" db2
        let db4 := rpcStep o "calculate_grade_averages" db3
        let db5 := rpcStep o "calculate_grade_ranks" db4
        let db6 := rpcStep o "calculate_all_india_rank" db5
        (db6, { status := 200, ok := true, count := uploadRows.length,
                results := if o.fetchErr then [] else o.fetchRows },
         [.checkExam key, .insertUpload uploadRows,
          .rpc "calculate_ranks", .rpc "calculate_exam_averages",
          .rpc "calculate_grade_averages", .rpc "calculate_grade_ranks",
          .rpc "calculate_all_india_rank", .fetchResults])

/-- Concrete exam context for the handler witnesses. -/
def wCtx : ExamCtx :=
  { school_id := "TS2507", program := "P", exam_pattern := "E",
    className := "6", sectionName := "A", exam_date := "2025-01-01",
    max_marks_physics := "50", max_marks_maths := "50",
    max_marks_chemistry := "50", max_marks_biology := "50" }

/-- Concrete parsed records: an index row followed by one data row. -/
def wRecords : List XRow :=
  [[("1", some "idx")], [("2", some "S1"), ("3", some "Alice Smith")]]

/-- An oracle on which every recalculation call and the results fetch fail,
while the check and the insert succeed. -/
def wOracle : ExamOracle :=
  { checkErr := false, insertErr := false, rpcErr := fun _ => true,
    rpcEffect := fun _ db => db, fetchErr := true, fetchRows := ["r"] }

/-- An empty store. -/
def wDb : ExamDB := { exams := [], uploads := [] }

/-- A store already holding an exam with the checked key. -/
def wDbDup : ExamDB := { exams := [examKeyOf wCtx], uploads := [] }

/-! ## Student bulk upload (src/controllers/schoolController.js lines
361-522): the records → studentsData mapping of lines 445-483. -/

/-- JavaScript truthiness of a nullable cell value: absent/null/empty are
falsy. -/
def cellTruthy (c : Option String) : Bool :=
  match c with
  | some s => s ≠ ""
  | none => false

/-- `a || b` on nullable cell values. -/
def jsOrCell (a b : Option String) : Option String := if cellTruthy a then a else b

/-- `x || null` on a nullable cell value. -/
def jsOrNullCell (c : Option String) : Option String :=
  if cellTruthy c then c else none

/-- `record['K']`: the cell value, with both an absent key and a null cell
giving `none` (undefined and null are interchangeable here). -/
def cellVal (r : XRow) (k : String) : Option String := (cellGet r k).join

/-- `parseInt(record['ROLLNO'] || record['Roll No'] || record['Student ID']
|| record['student_id'])`; `parseInt` of null/undefined is `NaN`. -/
def rollNoOf (r : XRow) : Option ℤ :=
  match jsOrCell (jsOrCell (jsOrCell (cellVal r "ROLLNO") (cellVal r "Roll No"))
      (cellVal r "Student ID")) (cellVal r "student_id") with
  | some s => jsParseInt s
  | none => none

/-- `(record['NAME'] || record['name'] || record['First Name'] || '').trim()`. -/
def studentNameOf (r : XRow) : String :=
  jsTrim ((jsOrCell (jsOrCell (cellVal r "NAME") (cellVal r "name"))
    (cellVal r "First Name")).getD "")

/-- A student row as inserted into the `students` table; `class`/`section`
are `className`/`sectionName`. -/
structure StudentRec where
  school_id : String
  student_id : String
  roll_no : ℤ
  name : String
  className : String
  sectionName : String
  gender : Option String
  created_at : String
  updated_at : String
deriving DecidableEq

/-- The per-record mapper of the student upload (schoolController.js lines
446-477): records whose roll number fails integer parsing or is ≤ 0 are
dropped (`null`); otherwise the student object is built (the parsed phone
and email of lines 463-464 are not part of the inserted object). `now`
stands for `new Date().toISOString()`. -/
def parseStudent (school_id classValue sectionValue now : String)
    (r : XRow) : Option StudentRec :=
  let studentName := studentNameOf r
  match rollNoOf r with
  | none => none
  | some rollNo =>
    if rollNo ≤ 0 then none
    else some {
      school_id := school_id,
      student_id := Int.repr rollNo,
      roll_no := rollNo,
      name := studentName,
      className := classValue,
      sectionName := sectionValue,
      gender := jsOrNullCell (jsOrCell (cellVal r "Gender") (cellVal r "gender")),
      created_at := now,
      updated_at := now }

/-- `studentsData` (lines 445-483): map the records, drop the nulls, then
keep only students with a truthy name and a positive roll number. -/
def uploadStudentsData (school_id classValue sectionValue now : String)
    (records : List XRow) : List StudentRec :=
  (records.filterMap (parseStudent school_id classValue sectionValue now)).filter
    (fun st => st.name ≠ "" && decide (0 < st.roll_no))

/-! ## School deletion (src/controllers/schoolController.js lines 186-233):
three sequential deletes with no transaction. -/

/-- Which of the three delete operations fail during this request. -/
structure DeleteOracle where
  teachersErr : Bool
  classesErr : Bool
  schoolErr : Bool

/-- The delete operations issued to the store, each filtered by school id. -/
inductive DelOp where
  | teachers (school_id : String)
  | classes (school_id : String)
  | school (school_id : String)
deriving DecidableEq

/-- The store tables touched by school deletion, each row represented by its
school id. -/
structure SchoolDB where
  teachers : List String
  classes : List String
  schools : List String
deriving DecidableEq

/-- The HTTP response of the delete handler. -/
structure DelResp where
  status : Nat
  msg : String
deriving DecidableEq

/-- The delete-school handler (lines 186-233): teachers, then classes, then
the school row, each step aborting with a 500 on failure (a failing delete
leaves the store untouched); no rollback of earlier steps. -/
def deleteSchoolHandler (o : DeleteOracle) (db : SchoolDB) (school_id : String) :
    SchoolDB × DelResp × List DelOp :=
  if school_id = "" then
    (db, { status := 400, msg := "school_id is required" }, [])
  else if o.teachersErr then
    (db, { status := 500, msg := "Failed to delete teachers" },
      [.teachers school_id])
  else
    let db1 : SchoolDB :=
      { db with teachers := db.teachers.filter (fun t => t ≠ school_id) }
    if o.classesErr then
      (db1, { status := 500, msg := "Failed to delete classes" },
        [.teachers school_id, .classes school_id])
    else
      let db2 : SchoolDB :=
        { db1 with classes := db1.classes.filter (fun c => c ≠ school_id) }
      if o.schoolErr then
        (db2, { status := 500, msg := "Failed to delete school" },
          [.teachers school_id, .classes school_id, .school school_id])
      else
        ({ db2 with schools := db2.schools.filter (fun sch => sch ≠ school_id) },
         { status := 200, msg := "School " ++ school_id ++
            " and all associated data deleted successfully." },
         [.teachers school_id, .classes school_id, .school school_id])

/-! ### Lemmas about the deriver -/

theorem lookupStr_shape (l : List (String × String)) (s : String) :
    lookupStr l s = "" ∨ ∃ p ∈ l, lookupStr l s = p.2 := by
  induction l with
  | nil => exact Or.inl rfl
  | cons p rest ih =>
    by_cases h : s = p.1
    · exact Or.inr ⟨p, List.mem_cons_self _ _, by simp [lookupStr, h]⟩
    · rcases ih with h' | ⟨q, hq, h'⟩
      · exact Or.inl (by simp [lookupStr, h, h'])
      · exact Or.inr ⟨q, List.mem_cons_of_mem _ hq, by simp [lookupStr, h, h']⟩

theorem lookupStr_eq_empty_of_not_mem (l : List (String × String)) (s : String)
    (h : s ∉ l.map Prod.fst) : lookupStr l s = "" := by
  induction l with
  | nil => rfl
  | cons p rest ih =>
    simp only [List.map_cons, List.mem_cons, not_or] at h
    simp [lookupStr, h.1, ih h.2]

theorem lookupStr_ne_empty_of_mem (l : List (String × String)) (s : String)
    (hmem : s ∈ l.map Prod.fst) (hvals : ∀ p ∈ l, p.2 ≠ "") :
    lookupStr l s ≠ "" := by
  induction l with
  | nil => simp at hmem
  | cons p rest ih =>
    simp only [List.map_cons, List.mem_cons] at hmem
    by_cases h : s = p.1
    · simpa [lookupStr, h] using hvals p (List.mem_cons_self _ _)
    · rcases hmem with h' | h'
      · exact absurd h' h
      · simpa [lookupStr, h] using
          ih h' (fun q hq => hvals q (List.mem_cons_of_mem _ hq))

theorem STATES_vals_twoUpper : ∀ p ∈ STATES, twoUpper p.2 = true := by decide

theorem STATES_vals_ne_empty : ∀ p ∈ STATES, p.2 ≠ "" := by decide

theorem isDigit_ne_dash {c : Char} (h : c.isDigit = true) : c ≠ '-' := by
  intro hc; subst hc; exact absurd h (by decide)

theorem padStart2_repr_twoDigits :
    ∀ n, n < 100 → twoDigitChars (padStart2 (Nat.repr n).data) = true := by decide

theorem twoDigitChars_shape {l : List Char} (h : twoDigitChars l = true) :
    ∃ x y, l = [x, y] ∧ x.isDigit = true ∧ y.isDigit = true := by
  match l, h with
  | [x, y], h =>
    simp only [twoDigitChars, Bool.and_eq_true] at h
    exact ⟨x, y, rfl, h.1, h.2⟩

theorem twoUpper_shape {s : String} (h : twoUpper s = true) :
    ∃ x y, s.data = [x, y] ∧ x.isUpper = true ∧ y.isUpper = true := by
  unfold twoUpper at h
  match hs : s.data, h with
  | [x, y], h =>
    have h' : (x.isUpper && y.isUpper) = true := h
    simp only [Bool.and_eq_true] at h'
    exact ⟨x, y, rfl, h'.1, h'.2⟩

theorem string_append_data (a b : String) : (a ++ b).data = a.data ++ b.data := by
  cases a; cases b; rfl

/-- C1: on every valid input (state a key of the table, academic year of the
literal "YYYY-YYYY" shape, normalized sequence parsing into [1, 99]) the
deriver returns a six-character identifier matching ^[A-Z]\x7b2\x7d\d\x7b4\x7d$,
it is deterministic (a pure function of its input), and the bulk-upload copy of
the function (src/index.js) agrees with the single-create copy
(src/controllers/schoolController.js) on every input. -/
theorem deriveSchoolId_valid_format (state ay num : String)
    (hstate : state ∈ STATES.map Prod.fst)
    (hay : isYYYYdashYYYY ay = true)
    (hn : ∃ n, parseIntDigits (normSeqRaw num) = some n ∧ 1 ≤ n ∧ n ≤ 99) :
    (∃ s, deriveSchoolId state ay num = some s ∧ matchesIdPattern s = true ∧
      s.length = 6)
    ∧ ServerIndex.deriveSchoolId state ay num = deriveSchoolId state ay num := by
  refine ⟨?_, rfl⟩
  obtain ⟨n, hparse, hn1, hn99⟩ := hn
  -- the abbreviation is two upper-case characters
  have habbr : twoUpper (lookupStr STATES state) = true := by
    rcases lookupStr_shape STATES state with h | ⟨p, hp, h⟩
    · exact absurd h (lookupStr_ne_empty_of_mem STATES state hstate STATES_vals_ne_empty)
    · rw [h]; exact STATES_vals_twoUpper p hp
  obtain ⟨u, v, habbrd, hu, hv⟩ := twoUpper_shape habbr
  -- the year component is the two digit characters in positions 3 and 4
  obtain ⟨ld⟩ := ay
  match ld, hay with
  | [a, b, c, d, h, e, f, g, k], hay =>
    simp only [isYYYYdashYYYY, Bool.and_eq_true, decide_eq_true_eq] at hay
    obtain ⟨⟨⟨⟨⟨⟨⟨⟨ha, hb⟩, hc⟩, hd⟩, hdash⟩, he⟩, hf⟩, hg⟩, hk⟩ := hay
    subst hdash
    have hyy : yearYY ⟨[a, b, c, d, '-', e, f, g, k]⟩ = ⟨[c, d]⟩ := by
      simp only [yearYY, List.takeWhile]
      simp [isDigit_ne_dash ha, isDigit_ne_dash hb, isDigit_ne_dash hc,
        isDigit_ne_dash hd]
    -- the sequence component is two digit characters
    have hnn : twoDigitChars (padStart2 (Nat.repr n).data) = true :=
      padStart2_repr_twoDigits n (by omega)
    obtain ⟨x, y, hxy, hx, hy⟩ := twoDigitChars_shape hnn
    have hres : deriveSchoolId state ⟨[a, b, c, d, '-', e, f, g, k]⟩ num =
        some (lookupStr STATES state ++ ⟨[c, d]⟩ ++ ⟨padStart2 (Nat.repr n).data⟩) := by
      simp only [deriveSchoolId]
      rw [hparse, hyy]
      show (if (lookupStr STATES state).data = [] ∨ (⟨[c, d]⟩ : String).data = [] ∨
          n < 1 ∨ 99 < n then none
        else some (lookupStr STATES state ++ ⟨[c, d]⟩ ++ ⟨padStart2 (Nat.repr n).data⟩)) = _
      rw [if_neg]
      push_neg
      refine ⟨?_, ?_, by omega, by omega⟩
      · rw [habbrd]; simp
      · simp
    have hdata : (lookupStr STATES state ++ ⟨[c, d]⟩ ++
        ⟨padStart2 (Nat.repr n).data⟩).data = [u, v, c, d, x, y] := by
      rw [string_append_data, string_append_data, habbrd, hxy]
      rfl
    refine ⟨_, hres, ?_, ?_⟩
    · unfold matchesIdPattern
      rw [hdata]
      simp [hu, hv, hc, hd, hx, hy]
    · show (lookupStr STATES state ++ ⟨[c, d]⟩ ++ ⟨padStart2 (Nat.repr n).data⟩).data.length = 6
      rw [hdata]
      rfl

/-- Witness for C1 at the concrete valid input
("Telangana", "2025-2026", "7"). -/
theorem deriveSchoolId_valid_format_witness :
    (∃ s, deriveSchoolId "Telangana" "2025-2026" "7" = some s ∧
      matchesIdPattern s = true ∧ s.length = 6)
    ∧ ServerIndex.deriveSchoolId "Telangana" "2025-2026" "7" =
        deriveSchoolId "Telangana" "2025-2026" "7" :=
  deriveSchoolId_valid_format "Telangana" "2025-2026" "7" (by decide) (by decide)
    ⟨7, by decide, by decide, by decide⟩

/-- Counterexample to C2 as stated: "hello" is not parseable as a
"YYYY-YYYY" academic year, yet the deriver does not return null on it — the
code only takes the last two characters of the part before the first hyphen,
so it returns "TSlo07" here. -/
theorem deriveSchoolId_invalid_cex :
    isYYYYdashYYYY "hello" = false ∧
      deriveSchoolId "Telangana" "hello" "7" = some "TSlo07" := by
  constructor
  · decide
  · decide

theorem string_eq_empty_iff (s : String) : s = "" ↔ s.data = [] := by
  constructor
  · intro h; rw [h]
  · intro h; cases s; cases h; rfl

/-- C2 amended: the deriver returns null whenever the state is neither a key
of the STATES table nor the name of a property inherited from
`Object.prototype`, or the part of the academic year before its first hyphen
is empty (in particular an empty academic year), or the two-digit
normalization of the school number is empty (non-numeric input) or parses to
0 — the only value of the normalization outside [1, 99]. Because `STATES` is
a plain object literal, an inherited name such as "constructor" is truthy
and yields a non-null identifier; on every state name that is not an
inherited one the prototype-aware function agrees with `deriveSchoolId`. -/
theorem deriveSchoolId_invalid_amended :
    (∀ state ay num, state ∉ STATES.map Prod.fst →
      state ∉ OBJECT_PROTOTYPE_KEYS → deriveSchoolIdJs state ay num = none)
    ∧ (∀ state ay num, ay.data.takeWhile (fun c => c ≠ '-') = [] →
      deriveSchoolIdJs state ay num = none)
    ∧ (∀ state ay num, (∀ n, parseIntDigits (normSeqRaw num) = some n → n = 0) →
      deriveSchoolIdJs state ay num = none)
    ∧ (deriveSchoolIdJs "constructor" "2025-2026" "7").isSome = true
    ∧ (∀ state ay num, state ∉ OBJECT_PROTOTYPE_KEYS →
      deriveSchoolIdJs state ay num = deriveSchoolId state ay num) := by
  refine ⟨?_, ?_, ?_, by decide, ?_⟩
  · intro state ay num h1 h2
    simp only [deriveSchoolIdJs, statesAccess, if_neg h1, if_neg h2]
    cases hp : parseIntDigits (normSeqRaw num) with
    | none => rfl
    | some n => simp [statesTruthy]
  · intro state ay num h
    have hyy : (yearYY ay).data = [] := by
      simp only [yearYY]
      by_cases hd : ay.data = []
      · simp [hd]
      · simp only [ne_eq, decide_not] at h
        simp [hd, h]
    simp only [deriveSchoolIdJs]
    cases hp : parseIntDigits (normSeqRaw num) with
    | none => rfl
    | some n => simp [hyy]
  · intro state ay num h
    simp only [deriveSchoolIdJs]
    cases hp : parseIntDigits (normSeqRaw num) with
    | none => rfl
    | some n =>
      have := h n hp
      simp [this]
  · intro state ay num hp
    by_cases hk : state ∈ STATES.map Prod.fst
    · simp only [deriveSchoolIdJs, deriveSchoolId, statesAccess, if_pos hk]
      cases hparse : parseIntDigits (normSeqRaw num) with
      | none => rfl
      | some n =>
        refine if_congr (or_congr ?_ Iff.rfl) rfl rfl
        constructor
        · intro h
          refine (string_eq_empty_iff _).mp ?_
          by_contra hne
          simp [statesTruthy, hne] at h
        · intro h
          have he : lookupStr STATES state = "" := (string_eq_empty_iff _).mpr h
          simp [statesTruthy, he]
    · have hl : lookupStr STATES state = "" :=
        lookupStr_eq_empty_of_not_mem STATES state hk
      simp only [deriveSchoolIdJs, deriveSchoolId, statesAccess,
        if_neg hk, if_neg hp]
      cases hparse : parseIntDigits (normSeqRaw num) with
      | none => rfl
      | some n => simp [statesTruthy, hl]

/-- Witness for the amended C2: a state name that is neither a table key nor
an inherited property, a year whose segment before the first hyphen is
empty, and a zero sequence number all yield null; and on "Atlantis" the
prototype-aware function agrees with the plain one. -/
theorem deriveSchoolId_invalid_amended_witness :
    deriveSchoolIdJs "Atlantis" "2025-2026" "7" = none
    ∧ deriveSchoolIdJs "Telangana" "-2026" "7" = none
    ∧ deriveSchoolIdJs "Telangana" "2025-2026" "00" = none
    ∧ (deriveSchoolIdJs "constructor" "2025-2026" "7").isSome = true
    ∧ deriveSchoolIdJs "Atlantis" "2025-2026" "7" =
        deriveSchoolId "Atlantis" "2025-2026" "7" :=
  ⟨deriveSchoolId_invalid_amended.1 "Atlantis" "2025-2026" "7" (by decide) (by decide),
   deriveSchoolId_invalid_amended.2.1 "Telangana" "-2026" "7" (by decide),
   deriveSchoolId_invalid_amended.2.2.1 "Telangana" "2025-2026" "00"
     (by intro n hn; simp [parseIntDigits, normSeqRaw, natOfDigits10] at hn; omega),
   deriveSchoolId_invalid_amended.2.2.2.1,
   deriveSchoolId_invalid_amended.2.2.2.2 "Atlantis" "2025-2026" "7" (by decide)⟩

/-- C3: the deriver normalizes the school number by stripping non-digits and
truncating to the first two digits before parsing: it is insensitive to
replacing the school number by that normalization, and on the documented
examples it returns "TS2507" for "7" and truncates "123" to "12", returning
"TS2512" rather than an error. -/
theorem deriveSchoolId_truncates :
    deriveSchoolId "Telangana" "2025-2026" "7" = some "TS2507"
    ∧ deriveSchoolId "Telangana" "2025-2026" "123" = some "TS2512"
    ∧ ∀ state ay num, deriveSchoolId state ay num =
        deriveSchoolId state ay ⟨(num.data.filter Char.isDigit).take 2⟩ := by
  refine ⟨by decide, by decide, ?_⟩
  intro state ay num
  have hnorm : normSeqRaw ⟨(num.data.filter Char.isDigit).take 2⟩ = normSeqRaw num := by
    simp only [normSeqRaw]
    have hall : ∀ c ∈ (num.data.filter Char.isDigit).take 2, Char.isDigit c = true :=
      fun c hc => List.of_mem_filter (List.mem_of_mem_take hc)
    rw [List.filter_eq_self.mpr hall, List.take_take]
    simp
  simp only [deriveSchoolId, hnorm]

theorem missingIndices_length (k : Nat) (rows : List SRow) :
    (missingIndices k rows).length = rows.countP missingRequired := by
  induction rows generalizing k with
  | nil => rfl
  | cons r rest ih =>
    rw [List.countP_cons]
    by_cases h : missingRequired r
    · simp [missingIndices, h, ih]
    · simp [missingIndices, h, ih]

theorem uploadSchoolsRows_cons_missing (k : Nat) (r : SRow) (rest : List SRow)
    (h : missingRequired r = true) :
    uploadSchoolsRows k (r :: rest) = ((uploadSchoolsRows (k + 1) rest).1,
      ("Row " ++ Nat.repr (k + 1) ++ ": Missing required fields") ::
        (uploadSchoolsRows (k + 1) rest).2) := by
  simp [uploadSchoolsRows, h]

theorem uploadSchoolsRows_cons_valid (k : Nat) (r : SRow) (rest : List SRow)
    (sid : String) (h : missingRequired r = false)
    (hsid : deriveSchoolId (rowState r) (rowAcademicYear r) (rowSchoolNumber r) = some sid) :
    uploadSchoolsRows k (r :: rest) =
      ({ school_id := sid, school_name := rowSchoolName r, state := rowState r,
         academic_year := rowAcademicYear r, area := jsOrNullS (pick r "Area"),
         district := jsOrNullS (pick r "District") } :: (uploadSchoolsRows (k + 1) rest).1,
       (uploadSchoolsRows (k + 1) rest).2) := by
  simp [uploadSchoolsRows, h, hsid]

theorem uploadSchoolsRows_accounting (k : Nat) (rows : List SRow)
    (hvalid : ∀ r ∈ rows, missingRequired r = false →
      (deriveSchoolId (rowState r) (rowAcademicYear r) (rowSchoolNumber r)).isSome = true) :
    (uploadSchoolsRows k rows).1.length = rows.length - rows.countP missingRequired
    ∧ (uploadSchoolsRows k rows).2 = (missingIndices k rows).map
        (fun i => "Row " ++ Nat.repr (i + 1) ++ ": Missing required fields") := by
  induction rows generalizing k with
  | nil => exact ⟨rfl, rfl⟩
  | cons r rest ih =>
    have hrest := ih (k + 1)
      (fun q hq => hvalid q (List.mem_cons_of_mem _ hq))
    have hle := List.countP_le_length (p := missingRequired) (l := rest)
    rw [List.countP_cons]
    cases hmiss : missingRequired r with
    | true =>
      rw [uploadSchoolsRows_cons_missing k r rest hmiss]
      constructor
      · rw [hrest.1]
        simp only [hmiss, List.length_cons]
        simp
      · show _ :: _ = List.map _ (missingIndices k (r :: rest))
        rw [show missingIndices k (r :: rest) = k :: missingIndices (k + 1) rest by
          simp [missingIndices, hmiss]]
        rw [List.map_cons, hrest.2]
    | false =>
      have hsome := hvalid r (List.mem_cons_self _ _) hmiss
      obtain ⟨sid, hsid⟩ := Option.isSome_iff_exists.mp hsome
      rw [uploadSchoolsRows_cons_valid k r rest sid hmiss hsid]
      constructor
      · show (uploadSchoolsRows (k + 1) rest).1.length + 1 = _
        rw [hrest.1]
        simp only [hmiss, List.length_cons]
        simp
        all_goals omega
      · show (uploadSchoolsRows (k + 1) rest).2 = List.map _ (missingIndices k (r :: rest))
        rw [show missingIndices k (r :: rest) = missingIndices (k + 1) rest by
          simp [missingIndices, hmiss]]
        exact hrest.2

/-- C4: for a parsed school-upload file in which every row either misses a
required field or derives a valid school id, the bulk upload builds exactly
N - M batch records and M error entries, where N is the number of rows and M
the number of rows missing a required field, and the error list cites exactly
the 1-based row numbers of the missing rows, in order (invalid rows are
skipped, processing reaches the end of the file). -/
theorem uploadSchools_row_accounting (rows : List SRow)
    (hvalid : ∀ r ∈ rows, missingRequired r = false →
      (deriveSchoolId (rowState r) (rowAcademicYear r) (rowSchoolNumber r)).isSome = true) :
    (uploadSchoolsRows 0 rows).1.length = rows.length - rows.countP missingRequired
    ∧ (uploadSchoolsRows 0 rows).2.length = rows.countP missingRequired
    ∧ (uploadSchoolsRows 0 rows).2 = (missingIndices 0 rows).map
        (fun i => "Row " ++ Nat.repr (i + 1) ++ ": Missing required fields") := by
  obtain ⟨h1, h2⟩ := uploadSchoolsRows_accounting 0 rows hvalid
  refine ⟨h1, ?_, h2⟩
  rw [h2, List.length_map, missingIndices_length]

/-- Witness for C4: a three-row file with one row missing a required field
yields a batch of two records and one error, citing row 2. -/
theorem uploadSchools_row_accounting_witness :
    (uploadSchoolsRows 0 [
      [("School Name", "Alpha"), ("State", "Telangana"),
        ("Academic Year", "2025-2026"), ("School Number", "7")],
      [("School Name", "Beta")],
      [("School Name", "Gamma"), ("State", "Kerala"),
        ("Academic Year", "2024-2025"), ("School Number", "12")]]).1.length = 3 - 1
    ∧ (uploadSchoolsRows 0 [
      [("School Name", "Alpha"), ("State", "Telangana"),
        ("Academic Year", "2025-2026"), ("School Number", "7")],
      [("School Name", "Beta")],
      [("School Name", "Gamma"), ("State", "Kerala"),
        ("Academic Year", "2024-2025"), ("School Number", "12")]]).2.length = 1
    ∧ (uploadSchoolsRows 0 [
      [("School Name", "Alpha"), ("State", "Telangana"),
        ("Academic Year", "2025-2026"), ("School Number", "7")],
      [("School Name", "Beta")],
      [("School Name", "Gamma"), ("State", "Kerala"),
        ("Academic Year", "2024-2025"), ("School Number", "12")]]).2 =
      ["Row 2: Missing required fields"] := by
  have h := uploadSchools_row_accounting [
      [("School Name", "Alpha"), ("State", "Telangana"),
        ("Academic Year", "2025-2026"), ("School Number", "7")],
      [("School Name", "Beta")],
      [("School Name", "Gamma"), ("State", "Kerala"),
        ("Academic Year", "2024-2025"), ("School Number", "12")]] (by decide)
  refine ⟨?_, ?_, ?_⟩
  · rw [h.1]; decide
  · rw [h.2.1]; decide
  · rw [h.2.2]; decide

example : jsParseFloat "abc" = none := by decide

example : jsParseInt "50" = some 50 := by decide

example : jsParseInt "" = none := by decide

example : containsL "roll".data (jsToLower "Roll No").data = true := by decide

example : jsToFixed2 (180 / 200 * 100) = 90 := by norm_num [jsToFixed2, round_eq]

/-- C5: for every accepted exam-result row (nonempty student id), the stored
percentage equals the total marks divided by the summed maximum marks, times
100, rounded to two decimal places, whenever that sum parses and is strictly
positive; it equals 0 when the sum is 0 (no division is attempted); and a
total of 180 out of 200 rounds to exactly 90. -/
theorem uploadExamResults_percentage (ctx : ExamCtx) (fileName now : String)
    (index : Nat) (r : XRow)
    (hid : getString (buildMappedRow r) ["student_id"] ≠ "") :
    (∃ out, buildUploadRow ctx fileName now index r = some out ∧
      (∀ v : ℤ, totalMaxMarks ctx = some v → 0 < v →
        out.data.percentage = jsToFixed2 (out.data.total_marks / (v : ℚ) * 100))
      ∧ (totalMaxMarks ctx = some 0 → out.data.percentage = 0))
    ∧ jsToFixed2 ((180 : ℚ) / 200 * 100) = 90 := by
  refine ⟨?_, by norm_num [jsToFixed2, round_eq]⟩
  simp only [buildUploadRow]
  rw [if_neg hid]
  refine ⟨_, rfl, ?_, ?_⟩
  · intro v hv hv0
    simp only [hv]
    rw [if_pos hv0]
  · intro h0
    simp only [h0]
    norm_num

/-- Witness for C5 at a concrete row with student id "S1" and all four
maximum marks set to "50". -/
theorem uploadExamResults_percentage_witness :
    (∃ out, buildUploadRow
        { school_id := "TS2507", program := "P", exam_pattern := "E",
          className := "6", sectionName := "A", exam_date := "2025-01-01",
          max_marks_physics := "50", max_marks_maths := "50",
          max_marks_chemistry := "50", max_marks_biology := "50" }
        "marks.xlsx" "2025-01-02T00:00:00.000Z" 0
        [("2", some "S1"), ("3", some "Alice Smith"), ("10", some "45")] = some out ∧
      (∀ v : ℤ, totalMaxMarks
        { school_id := "TS2507", program := "P", exam_pattern := "E",
          className := "6", sectionName := "A", exam_date := "2025-01-01",
          max_marks_physics := "50", max_marks_maths := "50",
          max_marks_chemistry := "50", max_marks_biology := "50" } = some v → 0 < v →
        out.data.percentage = jsToFixed2 (out.data.total_marks / (v : ℚ) * 100))
      ∧ (totalMaxMarks
        { school_id := "TS2507", program := "P", exam_pattern := "E",
          className := "6", sectionName := "A", exam_date := "2025-01-01",
          max_marks_physics := "50", max_marks_maths := "50",
          max_marks_chemistry := "50", max_marks_biology := "50" } = some 0 →
        out.data.percentage = 0))
    ∧ jsToFixed2 ((180 : ℚ) / 200 * 100) = 90 :=
  uploadExamResults_percentage
    { school_id := "TS2507", program := "P", exam_pattern := "E",
      className := "6", sectionName := "A", exam_date := "2025-01-01",
      max_marks_physics := "50", max_marks_maths := "50",
      max_marks_chemistry := "50", max_marks_biology := "50" }
    "marks.xlsx" "2025-01-02T00:00:00.000Z" 0
    [("2", some "S1"), ("3", some "Alice Smith"), ("10", some "45")] (by decide)

/-- C8: the exam-result ingester resolves fields positionally — the mapped
row is exactly the association of field names to the cells at the hardcoded
column indices 2, 3, 7, 8, 9, 10, 18, 26, 34 — and, on a nonempty record
list, it skips one or two leading rows: always the first, and the second
exactly when the header heuristic (marker substrings "roll"/"name" at the
known index positions) detects it as a header row. -/
theorem uploadExamResults_positional (records : List XRow) (hne : records ≠ []) :
    (skipLeadingRows records = records.drop 1 ∨
      skipLeadingRows records = records.drop 2)
    ∧ (∀ hr rest2, records.drop 1 = hr :: rest2 →
        (skipLeadingRows records = records.drop 2 ↔ isHeaderRow hr = true))
    ∧ (∀ r, buildMappedRow r = [
        ("student_id", (cellGet r "2").join), ("student_name", (cellGet r "3").join),
        ("correct", (cellGet r "7").join), ("wrong", (cellGet r "8").join),
        ("unattempted", (cellGet r "9").join), ("physics", (cellGet r "10").join),
        ("chemistry", (cellGet r "18").join), ("maths", (cellGet r "26").join),
        ("biology", (cellGet r "34").join)]) := by
  have hmap : ∀ r : XRow, buildMappedRow r = [
      ("student_id", (cellGet r "2").join), ("student_name", (cellGet r "3").join),
      ("correct", (cellGet r "7").join), ("wrong", (cellGet r "8").join),
      ("unattempted", (cellGet r "9").join), ("physics", (cellGet r "10").join),
      ("chemistry", (cellGet r "18").join), ("maths", (cellGet r "26").join),
      ("biology", (cellGet r "34").join)] := by
    intro r
    simp only [buildMappedRow, COLUMN_MAP, List.map_cons, List.map_nil]
    refine congrArg₂ _ ?_ (congrArg₂ _ ?_ (congrArg₂ _ ?_ (congrArg₂ _ ?_
      (congrArg₂ _ ?_ (congrArg₂ _ ?_ (congrArg₂ _ ?_ (congrArg₂ _ ?_
      (congrArg₂ _ ?_ rfl)))))))) <;>
      · refine congrArg _ ?_
        cases cellGet r _ with
        | none => rfl
        | some c => cases c <;> rfl
  obtain ⟨a, rest⟩ : ∃ a rest, records = a :: rest := by
    cases records with
    | nil => exact absurd rfl hne
    | cons a rest => exact ⟨a, rest, rfl⟩
  obtain ⟨rest, rfl⟩ := rest
  cases rest with
  | nil =>
    refine ⟨Or.inl rfl, ?_, hmap⟩
    intro hr rest2 h
    simp at h
  | cons hr rest2 =>
    by_cases hh : isHeaderRow hr
    · refine ⟨Or.inr ?_, ?_, hmap⟩
      · simp [skipLeadingRows, hh]
      · intro hr2 rest3 h
        simp only [List.drop_one, List.tail_cons] at h
        cases h
        simp [skipLeadingRows, hh]
    · refine ⟨Or.inl ?_, ?_, hmap⟩
      · simp [skipLeadingRows, hh]
      · intro hr2 rest3 h
        simp only [List.drop_one, List.tail_cons] at h
        cases h
        constructor
        · intro habs
          rw [show skipLeadingRows (a :: hr :: rest2) = hr :: rest2 by
            simp [skipLeadingRows, hh]] at habs
          have := congrArg List.length habs
          simp at this
        · intro habs
          exact absurd habs hh

/-- Witness for C8: a three-row file whose second row has "Roll No" at column
index 2 loses both leading rows. -/
theorem uploadExamResults_positional_witness :
    ((skipLeadingRows [[("2", some "2")], [("2", some "Roll No")], [("2", some "S1")]] =
        [[("2", some "2")], [("2", some "Roll No")], [("2", some "S1")]].drop 1 ∨
      skipLeadingRows [[("2", some "2")], [("2", some "Roll No")], [("2", some "S1")]] =
        [[("2", some "2")], [("2", some "Roll No")], [("2", some "S1")]].drop 2)
    ∧ (∀ hr rest2,
        ([[("2", some "2")], [("2", some "Roll No")], [("2", some "S1")]] : List XRow).drop 1 =
          hr :: rest2 →
        (skipLeadingRows [[("2", some "2")], [("2", some "Roll No")], [("2", some "S1")]] =
          [[("2", some "2")], [("2", some "Roll No")], [("2", some "S1")]].drop 2 ↔
          isHeaderRow hr = true))
    ∧ (∀ r, buildMappedRow r = [
        ("student_id", (cellGet r "2").join), ("student_name", (cellGet r "3").join),
        ("correct", (cellGet r "7").join), ("wrong", (cellGet r "8").join),
        ("unattempted", (cellGet r "9").join), ("physics", (cellGet r "10").join),
        ("chemistry", (cellGet r "18").join), ("maths", (cellGet r "26").join),
        ("biology", (cellGet r "34").join)])) :=
  uploadExamResults_positional
    [[("2", some "2")], [("2", some "Roll No")], [("2", some "S1")]] (by decide)

/-- C6: whenever the exam-result upload reaches a successful batch insert,
the handler issues exactly the five recalculation calls, in the fixed order
ranks → exam averages → grade averages → grade ranks → all-India rank,
followed by the results fetch — and whatever subset of those steps or the
fetch the oracle fails, the response is still a success with status 200 and
the uploaded row count. -/
theorem uploadExamResults_recalc_chain (o : ExamOracle) (ctx : ExamCtx)
    (fileName now : String) (records : List XRow) (db : ExamDB)
    (h1 : records ≠ [])
    (h2 : o.checkErr = false)
    (h3 : db.exams.any (fun e => e == examKeyOf ctx) = false)
    (h4 : examUploadRows ctx fileName now (skipLeadingRows records) ≠ [])
    (h5 : o.insertErr = false) :
    (uploadExamResultsHandler o ctx fileName now records db).2 =
      ({ status := 200, ok := true,
         count := (examUploadRows ctx fileName now (skipLeadingRows records)).length,
         results := if o.fetchErr then [] else o.fetchRows },
       [.checkExam (examKeyOf ctx),
        .insertUpload (examUploadRows ctx fileName now (skipLeadingRows records)),
        .rpc "calculate_ranks", .rpc "calculate_exam_averages",
        .rpc "calculate_grade_averages", .rpc "calculate_grade_ranks",
        .rpc "calculate_all_india_rank", .fetchResults]) := by
  have hne : records.isEmpty = false := by
    cases records with
    | nil => exact absurd rfl h1
    | cons a t => rfl
  have hrows : (examUploadRows ctx fileName now (skipLeadingRows records)).isEmpty
      = false := by
    cases hr : examUploadRows ctx fileName now (skipLeadingRows records) with
    | nil => exact absurd hr h4
    | cons a t => rfl
  simp only [uploadExamResultsHandler, hne, h2, h3, hrows, h5,
    Bool.false_eq_true, if_false]

/-- C10: when the duplicate-exam check finds an existing exam with the same
(school, program, pattern, class, section, date) key, the handler answers
409, the only store operation issued is the check itself (no row building,
no insert, no recalculation), and the store state is returned unchanged. -/
theorem uploadExamResults_duplicate_409 (o : ExamOracle) (ctx : ExamCtx)
    (fileName now : String) (records : List XRow) (db : ExamDB)
    (h1 : records ≠ [])
    (h2 : o.checkErr = false)
    (h3 : db.exams.any (fun e => e == examKeyOf ctx) = true) :
    uploadExamResultsHandler o ctx fileName now records db =
      (db, { status := 409, errMsg :=
        "This exam has already been registered and results uploaded. Duplicate uploads are not allowed." },
       [.checkExam (examKeyOf ctx)]) := by
  have hne : records.isEmpty = false := by
    cases records with
    | nil => exact absurd rfl h1
    | cons a t => rfl
  simp only [uploadExamResultsHandler, hne, h2, h3,
    Bool.false_eq_true, if_false, if_true]

/-- Witness for C6: on the concrete input, with every recalculation step and
the fetch failing, the handler still answers 200 with count 1 and issues the
five calls in order. -/
theorem uploadExamResults_recalc_chain_witness :
    (uploadExamResultsHandler wOracle wCtx "marks.xlsx" "t0" wRecords wDb).2 =
      ({ status := 200, ok := true,
         count := (examUploadRows wCtx "marks.xlsx" "t0" (skipLeadingRows wRecords)).length,
         results := if wOracle.fetchErr then [] else wOracle.fetchRows },
       [.checkExam (examKeyOf wCtx),
        .insertUpload (examUploadRows wCtx "marks.xlsx" "t0" (skipLeadingRows wRecords)),
        .rpc "calculate_ranks", .rpc "calculate_exam_averages",
        .rpc "calculate_grade_averages", .rpc "calculate_grade_ranks",
        .rpc "calculate_all_india_rank", .fetchResults]) :=
  uploadExamResults_recalc_chain wOracle wCtx "marks.xlsx" "t0" wRecords wDb
    (by decide) rfl rfl (by decide) rfl

/-- Witness for C10: on the concrete input with a duplicate exam in the
store, the handler answers 409, issues only the check, and returns the store
unchanged. -/
theorem uploadExamResults_duplicate_409_witness :
    uploadExamResultsHandler wOracle wCtx "marks.xlsx" "t0" wRecords wDbDup =
      (wDbDup, { status := 409, errMsg :=
        "This exam has already been registered and results uploaded. Duplicate uploads are not allowed." },
       [.checkExam (examKeyOf wCtx)]) :=
  uploadExamResults_duplicate_409 wOracle wCtx "marks.xlsx" "t0" wRecords wDbDup
    (by decide) rfl (by decide)

/-- C9: every record the student upload sends to the store has a positive
integer roll number, and any spreadsheet row whose roll-number cell fails
integer parsing or parses to a value ≤ 0 is dropped by the mapper. -/
theorem uploadStudents_rollno_positive (sid cls sec now : String)
    (records : List XRow) :
    (∀ st ∈ uploadStudentsData sid cls sec now records, 1 ≤ st.roll_no)
    ∧ (∀ r : XRow, (rollNoOf r = none ∨ ∃ v, rollNoOf r = some v ∧ v ≤ 0) →
        parseStudent sid cls sec now r = none) := by
  constructor
  · intro st hmem
    have hp := (List.mem_filter.mp hmem).2
    simp only [Bool.and_eq_true, decide_eq_true_eq] at hp
    omega
  · intro r hr
    rcases hr with h | ⟨v, hv, hv0⟩
    · simp [parseStudent, h]
    · simp only [parseStudent, hv]
      rw [if_pos hv0]

/-- Witness for C9: a row with roll number "0" is dropped. -/
theorem uploadStudents_rollno_positive_witness :
    parseStudent "TS2507" "6" "A" "t0"
      [("ROLLNO", some "0"), ("NAME", some "Bob")] = none :=
  (uploadStudents_rollno_positive "TS2507" "6" "A" "t0" []).2
    [("ROLLNO", some "0"), ("NAME", some "Bob")]
    (Or.inr ⟨0, by decide, by decide⟩)

/-- C7: deleteSchool issues at most the three deletions teachers → classes →
school, in that order, stopping at the first failure with a 500: all three
are issued (status 200) when all succeed, and when the teacher delete fails
the handler answers 500 having issued only the teacher delete, the store
being returned entirely unchanged — in particular the classes and schools
rows for that school survive, with no compensating rollback. -/
theorem deleteSchool_sequential_no_rollback (o : DeleteOracle) (db : SchoolDB)
    (sid : String) (hsid : sid ≠ "") :
    (o.teachersErr = false → o.classesErr = false → o.schoolErr = false →
      (deleteSchoolHandler o db sid).2.2 = [.teachers sid, .classes sid, .school sid]
      ∧ (deleteSchoolHandler o db sid).2.1.status = 200)
    ∧ (o.teachersErr = false → o.classesErr = true →
      (deleteSchoolHandler o db sid).2.2 = [.teachers sid, .classes sid]
      ∧ (deleteSchoolHandler o db sid).2.1.status = 500)
    ∧ (o.teachersErr = false → o.classesErr = false → o.schoolErr = true →
      (deleteSchoolHandler o db sid).2.2 = [.teachers sid, .classes sid, .school sid]
      ∧ (deleteSchoolHandler o db sid).2.1.status = 500)
    ∧ (o.teachersErr = true →
      deleteSchoolHandler o db sid =
        (db, { status := 500, msg := "Failed to delete teachers" }, [.teachers sid])) := by
  refine ⟨?_, ?_, ?_, ?_⟩
  · intro h1 h2 h3
    simp [deleteSchoolHandler, hsid, h1, h2, h3]
  · intro h1 h2
    simp [deleteSchoolHandler, hsid, h1, h2]
  · intro h1 h2 h3
    simp [deleteSchoolHandler, hsid, h1, h2, h3]
  · intro h1
    simp [deleteSchoolHandler, hsid, h1]

/-- Witness for C7: with a failing teacher delete on a store holding one
teacher, one class and one school row for "TS2507", the handler answers 500
after only the teacher delete and the store comes back unchanged. -/
theorem deleteSchool_sequential_no_rollback_witness :
    ((({ teachersErr := true, classesErr := false, schoolErr := false } :
        DeleteOracle).teachersErr = false →
      ({ teachersErr := true, classesErr := false, schoolErr := false } :
        DeleteOracle).classesErr = false →
      ({ teachersErr := true, classesErr := false, schoolErr := false } :
        DeleteOracle).schoolErr = false →
      (deleteSchoolHandler { teachersErr := true, classesErr := false, schoolErr := false }
        { teachers := ["TS2507"], classes := ["TS2507"], schools := ["TS2507"] }
        "TS2507").2.2 = [.teachers "TS2507", .classes "TS2507", .school "TS2507"]
      ∧ (deleteSchoolHandler { teachersErr := true, classesErr := false, schoolErr := false }
        { teachers := ["TS2507"], classes := ["TS2507"], schools := ["TS2507"] }
        "TS2507").2.1.status = 200)
    ∧ (({ teachersErr := true, classesErr := false, schoolErr := false } :
        DeleteOracle).teachersErr = false →
      ({ teachersErr := true, classesErr := false, schoolErr := false } :
        DeleteOracle).classesErr = true →
      (deleteSchoolHandler { teachersErr := true, classesErr := false, schoolErr := false }
        { teachers := ["TS2507"], classes := ["TS2507"], schools := ["TS2507"] }
        "TS2507").2.2 = [.teachers "TS2507", .classes "TS2507"]
      ∧ (deleteSchoolHandler { teachersErr := true, classesErr := false, schoolErr := false }
        { teachers := ["TS2507"], classes := ["TS2507"], schools := ["TS2507"] }
        "TS2507").2.1.status = 500)
    ∧ (({ teachersErr := true, classesErr := false, schoolErr := false } :
        DeleteOracle).teachersErr = false →
      ({ teachersErr := true, classesErr := false, schoolErr := false } :
        DeleteOracle).classesErr = false →
      ({ teachersErr := true, classesErr := false, schoolErr := false } :
        DeleteOracle).schoolErr = true →
      (deleteSchoolHandler { teachersErr := true, classesErr := false, schoolErr := false }
        { teachers := ["TS2507"], classes := ["TS2507"], schools := ["TS2507"] }
        "TS2507").2.2 = [.teachers "TS2507", .classes "TS2507", .school "TS2507"]
      ∧ (deleteSchoolHandler { teachersErr := true, classesErr := false, schoolErr := false }
        { teachers := ["TS2507"], classes := ["TS2507"], schools := ["TS2507"] }
        "TS2507").2.1.status = 500)
    ∧ (({ teachersErr := true, classesErr := false, schoolErr := false } :
        DeleteOracle).teachersErr = true →
      deleteSchoolHandler { teachersErr := true, classesErr := false, schoolErr := false }
        { teachers := ["TS2507"], classes := ["TS2507"], schools := ["TS2507"] }
        "TS2507" =
        ({ teachers := ["TS2507"], classes := ["TS2507"], schools := ["TS2507"] },
         { status := 500, msg := "Failed to delete teachers" }, [.teachers "TS2507"]))) :=
  deleteSchool_sequential_no_rollback
    { teachersErr := true, classesErr := false, schoolErr := false }
    { teachers := ["TS2507"], classes := ["TS2507"], schools := ["TS2507"] }
    "TS2507" (by decide)
